import Mathlib

/-!
Verification of the Tamagotchi pet simulation engine.

Shallow embedding of the pet simulation core from `src/App.tsx`
(the v2 user-flow component): attribute snapshot, clamping, the
decay function, the lifecycle state machine driven by tick / hatch
timer / death-check effects and the six player commands, and the
load-from-storage logic with catch-up decay.

Attributes are modelled as rationals (the source uses JS numbers and
all constants are exact decimal fractions); timestamps are integers
(milliseconds since epoch, as produced by `Date.now()`).
-/

namespace Tamagotchi

/-- Life stages, `type LifeStage = "egg" | "hatching" | "alive" | "dead"`. -/
inductive LifeStage where
  | egg
  | hatching
  | alive
  | dead
deriving DecidableEq, Repr

/-- `type PetState`: the four wellbeing attributes plus the last-update
timestamp in milliseconds. -/
structure PetState where
  hunger : ℚ
  happiness : ℚ
  energy : ℚ
  cleanliness : ℚ
  lastUpdated : ℤ
deriving DecidableEq, Repr

/-- `const clamp = (v) => Math.max(0, Math.min(100, v))`. -/
def clamp (v : ℚ) : ℚ := max 0 (min 100 v)

/-- `TICK_MS = 5000`: the recurring tick interval in milliseconds. -/
def TICK_MS : ℤ := 5000

/-- `MAX_AGE = 24`: the pet dies once its age reaches this value. -/
def MAX_AGE : ℤ := 24

/-- `HATCH_MS = 1200`: duration of the hatching transition. -/
def HATCH_MS : ℤ := 1200

/-- `function freshPet(now)`: the fixed starting attribute values. -/
def freshPet (now : ℤ) : PetState :=
  { hunger := 70
    happiness := 60
    energy := 80
    cleanliness := 90
    lastUpdated := now }

/-- `function applyDecay(p, seconds)`: adds the fixed per-second rate
times `seconds` to each attribute and clamps; `lastUpdated` is
copied unchanged.  The source performs no adjustment of `seconds`. -/
def applyDecay (p : PetState) (seconds : ℚ) : PetState :=
  { hunger := clamp (p.hunger + (-0.25) * seconds)
    happiness := clamp (p.happiness + (-0.30) * seconds)
    energy := clamp (p.energy + (-0.18) * seconds)
    cleanliness := clamp (p.cleanliness + (-0.22) * seconds)
    lastUpdated := p.lastUpdated }

/-- The full game state held by the component:
`stage`, `age` and the pet attribute snapshot. -/
structure GameState where
  stage : LifeStage
  age : ℤ
  pet : PetState
deriving DecidableEq, Repr

/-- Attribute-range predicate: every wellbeing attribute lies in `[0, 100]`. -/
def inRange (p : PetState) : Prop :=
  0 ≤ p.hunger ∧ p.hunger ≤ 100 ∧
  0 ≤ p.happiness ∧ p.happiness ≤ 100 ∧
  0 ≤ p.energy ∧ p.energy ≤ 100 ∧
  0 ≤ p.cleanliness ∧ p.cleanliness ≤ 100

instance (p : PetState) : Decidable (inRange p) := by
  unfold inRange; infer_instance

/-- `const hatch = () => {...}`: only valid from `egg`; resets age to 0
and the pet to fresh values, and moves to `hatching`. -/
def hatch (now : ℤ) (s : GameState) : GameState :=
  if s.stage ≠ .egg then s
  else { stage := .hatching, age := 0, pet := freshPet now }

/-- `const restart = () => {...}`: ungated; returns to `egg` with age 0
and a fresh pet. -/
def restart (now : ℤ) (_s : GameState) : GameState :=
  { stage := .egg, age := 0, pet := freshPet now }

/-- The `setPet` body of `feed`: hunger +15, cleanliness −5, stamp now. -/
def feedPet (now : ℤ) (p : PetState) : PetState :=
  { p with hunger := clamp (p.hunger + 15)
           cleanliness := clamp (p.cleanliness - 5)
           lastUpdated := now }

/-- The `setPet` body of `play`: happiness +18, energy −10,
cleanliness −6, hunger −6, stamp now. -/
def playPet (now : ℤ) (p : PetState) : PetState :=
  { p with happiness := clamp (p.happiness + 18)
           energy := clamp (p.energy - 10)
           cleanliness := clamp (p.cleanliness - 6)
           hunger := clamp (p.hunger - 6)
           lastUpdated := now }

/-- The `setPet` body of `nap`: energy +20, happiness +4, hunger −5,
stamp now. -/
def napPet (now : ℤ) (p : PetState) : PetState :=
  { p with energy := clamp (p.energy + 20)
           happiness := clamp (p.happiness + 4)
           hunger := clamp (p.hunger - 5)
           lastUpdated := now }

/-- The `setPet` body of `clean`: cleanliness +22, happiness +3,
stamp now. -/
def cleanPet (now : ℤ) (p : PetState) : PetState :=
  { p with cleanliness := clamp (p.cleanliness + 22)
           happiness := clamp (p.happiness + 3)
           lastUpdated := now }

/-- `const feed = () => {...}`: gated on `alive`. -/
def feed (now : ℤ) (s : GameState) : GameState :=
  if s.stage ≠ .alive then s else { s with pet := feedPet now s.pet }

/-- `const play = () => {...}`: gated on `alive`. -/
def play (now : ℤ) (s : GameState) : GameState :=
  if s.stage ≠ .alive then s else { s with pet := playPet now s.pet }

/-- `const nap = () => {...}`: gated on `alive`. -/
def nap (now : ℤ) (s : GameState) : GameState :=
  if s.stage ≠ .alive then s else { s with pet := napPet now s.pet }

/-- `const clean = () => {...}`: gated on `alive`. -/
def clean (now : ℤ) (s : GameState) : GameState :=
  if s.stage ≠ .alive then s else { s with pet := cleanPet now s.pet }

/-- The hatch-timer effect: after `HATCH_MS` in stage `hatching`, the
timeout fires and sets the stage to `alive`; it exists only while the
stage is `hatching` (the effect clears the timeout otherwise). -/
def hatchTimerEffect (s : GameState) : GameState :=
  if s.stage ≠ .hatching then s else { s with stage := .alive }

/-- The recurring tick effect, active only while `alive`:
`age + 1` and one tick interval's worth of decay
(`TICK_MS / 1000` seconds), stamping `lastUpdated = now`. -/
def tickEffect (now : ℤ) (s : GameState) : GameState :=
  if s.stage ≠ .alive then s
  else { s with age := s.age + 1
                pet := { applyDecay s.pet ((TICK_MS : ℚ) / 1000) with
                         lastUpdated := now } }

/-- The death-check effect: while `alive`, when `age ≥ MAX_AGE` the
stage becomes `dead`. -/
def deathCheckEffect (s : GameState) : GameState :=
  if s.stage ≠ .alive then s
  else if MAX_AGE ≤ s.age then { s with stage := .dead } else s

/-- The events that can mutate the game state: the six player commands
and the three timer-driven effects. -/
inductive Event where
  | hatch
  | restart
  | feed
  | play
  | nap
  | clean
  | hatchTimer
  | tick
  | deathCheck
deriving DecidableEq, Repr

/-- Dispatch one event against the current state. -/
def step (now : ℤ) (e : Event) (s : GameState) : GameState :=
  match e with
  | .hatch => hatch now s
  | .restart => restart now s
  | .feed => feed now s
  | .play => play now s
  | .nap => nap now s
  | .clean => clean now s
  | .hatchTimer => hatchTimerEffect s
  | .tick => tickEffect now s
  | .deathCheck => deathCheckEffect s

/-- One attribute-store mutation: a decay application or one of the
four care-action pet updates. -/
inductive PetStep where
  | decay (seconds : ℚ)
  | feed (now : ℤ)
  | play (now : ℤ)
  | nap (now : ℤ)
  | clean (now : ℤ)
deriving DecidableEq, Repr

/-- Apply one attribute-store mutation. -/
def applyPetStep (p : PetState) : PetStep → PetState
  | .decay t => applyDecay p t
  | .feed now => feedPet now p
  | .play now => playPet now p
  | .nap now => napPet now p
  | .clean now => cleanPet now p

/-- Apply a sequence of attribute-store mutations, oldest first. -/
def applyPetSteps (p : PetState) (l : List PetStep) : PetState :=
  l.foldl applyPetStep p

/-- The raw `pet` object of a parsed stored value. `lastUpdated` is
`Option` because the field may be absent; a stored `0` is falsy in
`saved.pet.lastUpdated || now` and so behaves like an absent field. -/
structure RawPet where
  hunger : ℚ
  happiness : ℚ
  energy : ℚ
  cleanliness : ℚ
  lastUpdated : Option ℤ
deriving DecidableEq, Repr

/-- A parsed stored game object; every field may be absent
(`saved?.version === 2`, `saved.pet`, `saved.stage ?? "egg"`,
`typeof saved.age === "number"`). -/
structure RawGame where
  version : Option ℤ
  stage : Option LifeStage
  age : Option ℤ
  pet : Option RawPet
deriving DecidableEq, Repr

/-- The stored value under `STORAGE_KEY`: absent, unparsable JSON, or a
parsed object. -/
inductive Stored where
  | missing
  | unparsable
  | parsed (g : RawGame)
deriving DecidableEq, Repr

/-- `saved.pet.lastUpdated || now`: `0`, `null` and `undefined` are
falsy, so they are replaced by `now`. -/
def effectiveLastUpdated (rp : RawPet) (now : ℤ) : ℤ :=
  match rp.lastUpdated with
  | none => now
  | some v => if v = 0 then now else v

/-- The saved pet as a `PetState`, with the falsy-defaulted timestamp. -/
def RawPet.toPetState (rp : RawPet) (now : ℤ) : PetState :=
  { hunger := rp.hunger
    happiness := rp.happiness
    energy := rp.energy
    cleanliness := rp.cleanliness
    lastUpdated := effectiveLastUpdated rp now }

/-- Attribute-range predicate on a raw saved pet. -/
def rawInRange (rp : RawPet) : Prop :=
  0 ≤ rp.hunger ∧ rp.hunger ≤ 100 ∧
  0 ≤ rp.happiness ∧ rp.happiness ≤ 100 ∧
  0 ≤ rp.energy ∧ rp.energy ≤ 100 ∧
  0 ≤ rp.cleanliness ∧ rp.cleanliness ≤ 100

instance (rp : RawPet) : Decidable (rawInRange rp) := by
  unfold rawInRange; infer_instance

/-- The default fresh-egg state of `initialGame`. -/
def freshGame (now : ℤ) : GameState :=
  { stage := .egg, age := 0, pet := freshPet now }

/-- The `initialGame` restore logic: missing, unparsable or
version-mismatched (or pet-less) data yields the fresh egg default;
otherwise stage and age are taken from the stored value (with `egg` / `0`
defaults), `elapsedSec = Math.floor((now - (lastUpdated || now)) / 1000)`
is computed, and catch-up decay is applied only when the restored stage
is `alive`; `lastUpdated` is stamped to `now` in either case. -/
def loadGame (stored : Stored) (now : ℤ) : GameState :=
  match stored with
  | .missing => freshGame now
  | .unparsable => freshGame now
  | .parsed g =>
    if g.version = some 2 then
      match g.pet with
      | none => freshGame now
      | some rp =>
        let stage := g.stage.getD .egg
        let age := g.age.getD 0
        let savedPet := rp.toPetState now
        let elapsedSec : ℤ := (now - savedPet.lastUpdated).fdiv 1000
        let pet :=
          if stage = .alive then
            { applyDecay savedPet (elapsedSec : ℚ) with lastUpdated := now }
          else
            { savedPet with lastUpdated := now }
        { stage := stage, age := age, pet := pet }
    else freshGame now

/-- Concrete version-2 `alive` fixture used to exercise the resume path:
saved at `T0 = 50000` with the default starting attributes. -/
def c1SavedPet : RawPet :=
  { hunger := 70, happiness := 60, energy := 80, cleanliness := 90,
    lastUpdated := some 50000 }

def c1Saved : RawGame :=
  { version := some 2, stage := some .alive, age := some 7,
    pet := some c1SavedPet }


lemma clamp_nonneg (v : ℚ) : 0 ≤ clamp v := le_max_left 0 _

lemma clamp_le_hundred (v : ℚ) : clamp v ≤ 100 :=
  max_le (by norm_num) (min_le_left _ _)

lemma clamp_eq_self {v : ℚ} (h0 : 0 ≤ v) (h1 : v ≤ 100) : clamp v = v := by
  unfold clamp
  rw [min_eq_right h1, max_eq_right h0]

lemma clamp_of_nonpos {v : ℚ} (h : v ≤ 0) : clamp v = 0 := by
  unfold clamp
  rw [min_eq_right (h.trans (by norm_num)), max_eq_left h]

lemma clamp_le_of_le {v w : ℚ} (hvw : v ≤ w) (hw : 0 ≤ w) : clamp v ≤ w :=
  max_le hw ((min_le_right _ _).trans hvw)

lemma le_clamp_of_le {v w : ℚ} (hwv : w ≤ v) (hw : w ≤ 100) : w ≤ clamp v :=
  le_trans (le_min hw hwv) (le_max_right _ _)

lemma inRange_applyDecay (p : PetState) (t : ℚ) : inRange (applyDecay p t) :=
  ⟨clamp_nonneg _, clamp_le_hundred _, clamp_nonneg _, clamp_le_hundred _,
   clamp_nonneg _, clamp_le_hundred _, clamp_nonneg _, clamp_le_hundred _⟩

lemma inRange_feedPet (now : ℤ) {p : PetState} (h : inRange p) :
    inRange (feedPet now p) := by
  obtain ⟨-, -, h3, h4, h5, h6, -, -⟩ := h
  exact ⟨clamp_nonneg _, clamp_le_hundred _, h3, h4, h5, h6,
         clamp_nonneg _, clamp_le_hundred _⟩

lemma inRange_playPet (now : ℤ) {p : PetState} (_h : inRange p) :
    inRange (playPet now p) :=
  ⟨clamp_nonneg _, clamp_le_hundred _, clamp_nonneg _, clamp_le_hundred _,
   clamp_nonneg _, clamp_le_hundred _, clamp_nonneg _, clamp_le_hundred _⟩

lemma inRange_napPet (now : ℤ) {p : PetState} (h : inRange p) :
    inRange (napPet now p) := by
  obtain ⟨-, -, -, -, -, -, h7, h8⟩ := h
  exact ⟨clamp_nonneg _, clamp_le_hundred _, clamp_nonneg _, clamp_le_hundred _,
         clamp_nonneg _, clamp_le_hundred _, h7, h8⟩

lemma inRange_cleanPet (now : ℤ) {p : PetState} (h : inRange p) :
    inRange (cleanPet now p) := by
  obtain ⟨h1, h2, -, -, h5, h6, -, -⟩ := h
  exact ⟨h1, h2, clamp_nonneg _, clamp_le_hundred _, h5, h6,
         clamp_nonneg _, clamp_le_hundred _⟩

lemma inRange_applyPetStep {p : PetState} (h : inRange p) (st : PetStep) :
    inRange (applyPetStep p st) := by
  cases st with
  | decay t => exact inRange_applyDecay p t
  | feed now => exact inRange_feedPet now h
  | play now => exact inRange_playPet now h
  | nap now => exact inRange_napPet now h
  | clean now => exact inRange_cleanPet now h

/-- C2: after every decay application and every action application the four
attributes lie within `[0, 100]`: every sequence of such steps started from
an in-range snapshot stays in range after each step. -/
theorem clamp_invariant (p : PetState) (h : inRange p) (l : List PetStep) :
    inRange (applyPetSteps p l) := by
  induction l generalizing p with
  | nil => exact h
  | cons st l ih => exact ih _ (inRange_applyPetStep h st)

theorem clamp_invariant_witness :
    inRange (freshPet 0) ∧
    inRange (applyPetSteps (freshPet 0)
      [PetStep.decay 10, PetStep.feed 3, PetStep.play 4, PetStep.nap 5,
       PetStep.clean 6, PetStep.decay 100000]) :=
  ⟨by decide, clamp_invariant (freshPet 0) (by decide) _⟩

/-- C7: while `stage ≠ alive` the four care actions leave the whole state
unchanged, and `hatch` with `stage ≠ egg` leaves the whole state unchanged. -/
theorem gated_actions_noop (now : ℤ) (s : GameState) :
    (s.stage ≠ .alive →
      feed now s = s ∧ play now s = s ∧ nap now s = s ∧ clean now s = s) ∧
    (s.stage ≠ .egg → hatch now s = s) := by
  constructor
  · intro h
    refine ⟨?_, ?_, ?_, ?_⟩ <;> simp [feed, play, nap, clean, h]
  · intro h
    simp [hatch, h]

theorem gated_actions_noop_witness :
    ({ stage := .dead, age := 5, pet := freshPet 0 } : GameState).stage ≠ .alive ∧
    ({ stage := .dead, age := 5, pet := freshPet 0 } : GameState).stage ≠ .egg ∧
    feed 1 { stage := .dead, age := 5, pet := freshPet 0 } =
      { stage := .dead, age := 5, pet := freshPet 0 } ∧
    hatch 1 { stage := .dead, age := 5, pet := freshPet 0 } =
      { stage := .dead, age := 5, pet := freshPet 0 } :=
  ⟨by decide, by decide,
   ((gated_actions_noop 1 _).1 (by decide)).1,
   (gated_actions_noop 1 _).2 (by decide)⟩

/-- C8: while `alive`, each action applies exactly its clamped deltas and
stamps `lastUpdated = now`, leaving every other attribute and both `age`
and `stage` unchanged. -/
theorem alive_action_deltas (now : ℤ) (s : GameState) (h : s.stage = .alive) :
    feed now s = { s with pet := { s.pet with
        hunger := clamp (s.pet.hunger + 15)
        cleanliness := clamp (s.pet.cleanliness - 5)
        lastUpdated := now } } ∧
    play now s = { s with pet := { s.pet with
        happiness := clamp (s.pet.happiness + 18)
        energy := clamp (s.pet.energy - 10)
        cleanliness := clamp (s.pet.cleanliness - 6)
        hunger := clamp (s.pet.hunger - 6)
        lastUpdated := now } } ∧
    nap now s = { s with pet := { s.pet with
        energy := clamp (s.pet.energy + 20)
        happiness := clamp (s.pet.happiness + 4)
        hunger := clamp (s.pet.hunger - 5)
        lastUpdated := now } } ∧
    clean now s = { s with pet := { s.pet with
        cleanliness := clamp (s.pet.cleanliness + 22)
        happiness := clamp (s.pet.happiness + 3)
        lastUpdated := now } } := by
  refine ⟨?_, ?_, ?_, ?_⟩ <;>
    simp [feed, play, nap, clean, feedPet, playPet, napPet, cleanPet, h]

theorem alive_action_deltas_witness :
    ({ stage := .alive, age := 3, pet := freshPet 0 } : GameState).stage = .alive ∧
    feed 7 { stage := .alive, age := 3, pet := freshPet 0 } =
      { stage := .alive, age := 3, pet := { (freshPet 0) with
          hunger := clamp ((freshPet 0).hunger + 15)
          cleanliness := clamp ((freshPet 0).cleanliness - 5)
          lastUpdated := 7 } } :=
  ⟨rfl, (alive_action_deltas 7 { stage := .alive, age := 3, pet := freshPet 0 } rfl).1⟩


/-- C3 counterexample: `applyDecay` does not treat negative elapsed seconds
as 0 — a negative argument increases attributes — and the elapsed time
computed on resume is not clamped to zero at the low end. -/
theorem negative_elapsed_cex :
    (applyDecay { hunger := 50, happiness := 50, energy := 50,
                  cleanliness := 50, lastUpdated := 0 } (-4)).hunger = 51 ∧
    (applyDecay { hunger := 50, happiness := 50, energy := 50,
                  cleanliness := 50, lastUpdated := 0 } (-4)).hunger ≠ 50 ∧
    (loadGame (.parsed { version := some 2, stage := some .alive,
                         age := some 3,
                         pet := some { hunger := 70, happiness := 60,
                                       energy := 80, cleanliness := 90,
                                       lastUpdated := some 2000000 } })
        1000000).pet.hunger = 100 ∧
    (loadGame (.parsed { version := some 2, stage := some .alive,
                         age := some 3,
                         pet := some { hunger := 70, happiness := 60,
                                       energy := 80, cleanliness := 90,
                                       lastUpdated := some 2000000 } })
        1000000).pet.hunger ≠ 70 := by
  have hfd : ((-1000000 : ℤ)).fdiv 1000 = -1000 := by decide
  refine ⟨?_, ?_, ?_, ?_⟩ <;>
    norm_num [applyDecay, loadGame, clamp, RawPet.toPetState,
              effectiveLastUpdated, hfd]

/-- C3 amended: `applyDecay` applies the signed delta `rate · seconds`
unconditionally: for non-negative elapsed seconds no attribute increases,
but for negative elapsed seconds no attribute decreases (they increase up
to the 100 cap). -/
theorem decay_signed_delta (p : PetState) (t : ℚ) (hp : inRange p) :
    (0 ≤ t →
      (applyDecay p t).hunger ≤ p.hunger ∧
      (applyDecay p t).happiness ≤ p.happiness ∧
      (applyDecay p t).energy ≤ p.energy ∧
      (applyDecay p t).cleanliness ≤ p.cleanliness) ∧
    (t ≤ 0 →
      p.hunger ≤ (applyDecay p t).hunger ∧
      p.happiness ≤ (applyDecay p t).happiness ∧
      p.energy ≤ (applyDecay p t).energy ∧
      p.cleanliness ≤ (applyDecay p t).cleanliness) := by
  obtain ⟨h1, h2, h3, h4, h5, h6, h7, h8⟩ := hp
  constructor
  · intro ht
    exact ⟨clamp_le_of_le (by nlinarith) h1, clamp_le_of_le (by nlinarith) h3,
           clamp_le_of_le (by nlinarith) h5, clamp_le_of_le (by nlinarith) h7⟩
  · intro ht
    exact ⟨le_clamp_of_le (by nlinarith) h2, le_clamp_of_le (by nlinarith) h4,
           le_clamp_of_le (by nlinarith) h6, le_clamp_of_le (by nlinarith) h8⟩

theorem decay_signed_delta_witness :
    inRange (freshPet 0) ∧ (0 : ℚ) ≤ 8 ∧
    ((applyDecay (freshPet 0) 8).hunger ≤ (freshPet 0).hunger ∧
     (applyDecay (freshPet 0) 8).happiness ≤ (freshPet 0).happiness ∧
     (applyDecay (freshPet 0) 8).energy ≤ (freshPet 0).energy ∧
     (applyDecay (freshPet 0) 8).cleanliness ≤ (freshPet 0).cleanliness) :=
  ⟨by decide, by norm_num,
   (decay_signed_delta (freshPet 0) 8 (by decide)).1 (by norm_num)⟩

lemma clamp_decay_comp {x r a b : ℚ} (_hx0 : 0 ≤ x) (hx1 : x ≤ 100)
    (hr : r ≤ 0) (ha : 0 ≤ a) (hb : 0 ≤ b) (h : 0 ≤ x + r * (a + b)) :
    clamp (clamp (x + r * a) + r * b) = clamp (x + r * (a + b)) := by
  have hra : r * a ≤ 0 := mul_nonpos_iff.mpr (Or.inr ⟨hr, ha⟩)
  have hrb : r * b ≤ 0 := mul_nonpos_iff.mpr (Or.inr ⟨hr, hb⟩)
  have hd : r * (a + b) = r * a + r * b := by ring
  have hlo : 0 ≤ x + r * a := by linarith
  have hhi : x + r * a ≤ 100 := by linarith
  rw [clamp_eq_self hlo hhi,
      show x + r * a + r * b = x + r * (a + b) from by ring]

/-- C9: composing decays over non-negative durations `a` then `b` equals a
single decay over `a + b` as long as no attribute saturates at a bound
(none of the fully decayed values drops below 0); an attribute already at
the floor 0 stays at 0 under any further non-negative decay. -/
theorem decay_composition (p : PetState) (a b : ℚ) (hp : inRange p)
    (ha : 0 ≤ a) (hb : 0 ≤ b) :
    (0 ≤ p.hunger + (-0.25) * (a + b) →
     0 ≤ p.happiness + (-0.30) * (a + b) →
     0 ≤ p.energy + (-0.18) * (a + b) →
     0 ≤ p.cleanliness + (-0.22) * (a + b) →
     applyDecay (applyDecay p a) b = applyDecay p (a + b)) ∧
    (p.hunger = 0 → (applyDecay p a).hunger = 0) ∧
    (p.happiness = 0 → (applyDecay p a).happiness = 0) ∧
    (p.energy = 0 → (applyDecay p a).energy = 0) ∧
    (p.cleanliness = 0 → (applyDecay p a).cleanliness = 0) := by
  obtain ⟨h1, h2, h3, h4, h5, h6, h7, h8⟩ := hp
  refine ⟨?_, ?_, ?_, ?_, ?_⟩
  · intro k1 k2 k3 k4
    simp only [applyDecay, PetState.mk.injEq]
    refine ⟨clamp_decay_comp h1 h2 (by norm_num) ha hb k1,
            clamp_decay_comp h3 h4 (by norm_num) ha hb k2,
            clamp_decay_comp h5 h6 (by norm_num) ha hb k3,
            clamp_decay_comp h7 h8 (by norm_num) ha hb k4, trivial⟩
  · intro h0
    simp only [applyDecay, h0]
    exact clamp_of_nonpos (by nlinarith)
  · intro h0
    simp only [applyDecay, h0]
    exact clamp_of_nonpos (by nlinarith)
  · intro h0
    simp only [applyDecay, h0]
    exact clamp_of_nonpos (by nlinarith)
  · intro h0
    simp only [applyDecay, h0]
    exact clamp_of_nonpos (by nlinarith)

theorem decay_composition_witness :
    inRange (freshPet 0) ∧ (0 : ℚ) ≤ 10 ∧ (0 : ℚ) ≤ 20 ∧
    ((0 ≤ (freshPet 0).hunger + (-0.25) * (10 + 20) →
      0 ≤ (freshPet 0).happiness + (-0.30) * (10 + 20) →
      0 ≤ (freshPet 0).energy + (-0.18) * (10 + 20) →
      0 ≤ (freshPet 0).cleanliness + (-0.22) * (10 + 20) →
      applyDecay (applyDecay (freshPet 0) 10) 20 =
        applyDecay (freshPet 0) (10 + 20)) ∧
     ((freshPet 0).hunger = 0 → (applyDecay (freshPet 0) 10).hunger = 0) ∧
     ((freshPet 0).happiness = 0 → (applyDecay (freshPet 0) 10).happiness = 0) ∧
     ((freshPet 0).energy = 0 → (applyDecay (freshPet 0) 10).energy = 0) ∧
     ((freshPet 0).cleanliness = 0 →
       (applyDecay (freshPet 0) 10).cleanliness = 0)) :=
  ⟨by decide, by norm_num, by norm_num,
   decay_composition (freshPet 0) 10 20 (by decide) (by norm_num) (by norm_num)⟩

/-- C6: from `alive` at `age = MAX_AGE − 1`, one tick yields `age = MAX_AGE`
with that tick's decay applied and the stage still `alive`; the death check
then flips only the stage to `dead`, keeping the decayed attributes and the
age, so the final tick's decay is observable before and after death. -/
theorem death_after_final_tick (now : ℤ) (s : GameState)
    (hstage : s.stage = .alive) (hage : s.age = MAX_AGE - 1) :
    (tickEffect now s).stage = .alive ∧
    (tickEffect now s).age = MAX_AGE ∧
    (tickEffect now s).pet =
      { applyDecay s.pet ((TICK_MS : ℚ) / 1000) with lastUpdated := now } ∧
    deathCheckEffect (tickEffect now s) =
      { stage := .dead, age := MAX_AGE,
        pet := { applyDecay s.pet ((TICK_MS : ℚ) / 1000) with
                 lastUpdated := now } } := by
  have htick : tickEffect now s =
      { s with age := s.age + 1
               pet := { applyDecay s.pet ((TICK_MS : ℚ) / 1000) with
                        lastUpdated := now } } := by
    simp [tickEffect, hstage]
  have hageq : s.age + 1 = MAX_AGE := by omega
  rw [htick]
  refine ⟨hstage, hageq, rfl, ?_⟩
  simp only [deathCheckEffect, hstage, hageq]
  norm_num [MAX_AGE]

theorem death_after_final_tick_witness :
    ({ stage := .alive, age := 23, pet := freshPet 0 } : GameState).stage
      = .alive ∧
    ({ stage := .alive, age := 23, pet := freshPet 0 } : GameState).age
      = MAX_AGE - 1 ∧
    deathCheckEffect
        (tickEffect 99 { stage := .alive, age := 23, pet := freshPet 0 }) =
      { stage := .dead, age := MAX_AGE,
        pet := { applyDecay (freshPet 0) ((TICK_MS : ℚ) / 1000) with
                 lastUpdated := 99 } } :=
  ⟨rfl, by decide,
   (death_after_final_tick 99 { stage := .alive, age := 23, pet := freshPet 0 }
     rfl (by decide)).2.2.2⟩


/-- C5: a missing, unparsable or version-mismatched stored value loads as
a fresh egg state: `stage = egg`, `age = 0`, and the default starting
attributes (hunger 70, happiness 60, energy 80, cleanliness 90). -/
theorem load_bad_data_fresh_egg (stored : Stored) (now : ℤ)
    (h : stored = .missing ∨ stored = .unparsable ∨
         ∃ g, stored = .parsed g ∧ g.version ≠ some 2) :
    loadGame stored now =
      { stage := .egg, age := 0,
        pet := { hunger := 70, happiness := 60, energy := 80,
                 cleanliness := 90, lastUpdated := now } } := by
  rcases h with rfl | rfl | ⟨g, rfl, hv⟩
  · rfl
  · rfl
  · simp [loadGame, hv, freshGame, freshPet]

theorem load_bad_data_fresh_egg_witness :
    (∃ g, (Stored.parsed { version := some 1, stage := some .alive,
                           age := some 99,
                           pet := some { hunger := 400, happiness := -3,
                                         energy := 0, cleanliness := 9,
                                         lastUpdated := some 123 } })
            = Stored.parsed g ∧ g.version ≠ some 2) ∧
    loadGame (Stored.parsed { version := some 1, stage := some .alive,
                              age := some 99,
                              pet := some { hunger := 400, happiness := -3,
                                            energy := 0, cleanliness := 9,
                                            lastUpdated := some 123 } }) 777 =
      { stage := .egg, age := 0,
        pet := { hunger := 70, happiness := 60, energy := 80,
                 cleanliness := 90, lastUpdated := 777 } } :=
  ⟨⟨_, rfl, by decide⟩,
   load_bad_data_fresh_egg _ 777 (Or.inr (Or.inr ⟨_, rfl, by decide⟩))⟩

/-- C10: a version-2 stored game whose `pet.lastUpdated` is `0` or absent
gets the current time substituted for it, so the computed elapsed time is
zero and no catch-up decay is applied even when the saved stage is
`alive`: the restored attributes equal the saved (in-range) attributes and
`lastUpdated` is stamped to `now`. -/
theorem load_falsy_lastUpdated_no_decay (g : RawGame) (rp : RawPet)
    (now : ℤ) (hv : g.version = some 2) (hp : g.pet = some rp)
    (hlu : rp.lastUpdated = some 0 ∨ rp.lastUpdated = none)
    (hr : rawInRange rp) :
    (loadGame (.parsed g) now).pet =
      { hunger := rp.hunger, happiness := rp.happiness, energy := rp.energy,
        cleanliness := rp.cleanliness, lastUpdated := now } := by
  obtain ⟨h1, h2, h3, h4, h5, h6, h7, h8⟩ := hr
  have heff : effectiveLastUpdated rp now = now := by
    rcases hlu with h | h <;> simp [effectiveLastUpdated, h]
  simp only [loadGame, hv, hp, if_pos, RawPet.toPetState, heff]
  by_cases hst : g.stage.getD LifeStage.egg = LifeStage.alive
  · simp only [hst, if_true, sub_self, Int.zero_fdiv, Int.cast_zero,
               applyDecay, mul_zero, add_zero]
    simp only [clamp_eq_self h1 h2, clamp_eq_self h3 h4,
               clamp_eq_self h5 h6, clamp_eq_self h7 h8]
  · simp [hst]

theorem load_falsy_lastUpdated_no_decay_witness :
    ({ version := some 2, stage := some .alive, age := some 4,
       pet := some { hunger := 50, happiness := 40, energy := 30,
                     cleanliness := 20, lastUpdated := some 0 } }
        : RawGame).version = some 2 ∧
    rawInRange { hunger := 50, happiness := 40, energy := 30,
                 cleanliness := 20, lastUpdated := some 0 } ∧
    (loadGame (.parsed { version := some 2, stage := some .alive,
                         age := some 4,
                         pet := some { hunger := 50, happiness := 40,
                                       energy := 30, cleanliness := 20,
                                       lastUpdated := some 0 } })
        555555).pet =
      { hunger := 50, happiness := 40, energy := 30, cleanliness := 20,
        lastUpdated := 555555 } :=
  ⟨rfl, by decide,
   load_falsy_lastUpdated_no_decay _ _ 555555 rfl rfl (Or.inl rfl) (by decide)⟩

/-- C1 counterexample: for a version-2 `alive` snapshot whose saved
`lastUpdated` is `T0 = 0`, loading at `T1 = 100000` does not restore
`decay(A0, floor((T1 − T0)/1000))`: the formula would give hunger 45, but
the code treats the falsy timestamp as "just now" and restores hunger 70. -/
theorem catchup_formula_cex :
    (loadGame (.parsed { version := some 2, stage := some .alive,
                         age := some 3,
                         pet := some { hunger := 70, happiness := 60,
                                       energy := 80, cleanliness := 90,
                                       lastUpdated := some 0 } })
        100000).pet.hunger = 70 ∧
    (applyDecay { hunger := 70, happiness := 60, energy := 80,
                  cleanliness := 90, lastUpdated := 0 }
        ((((100000 : ℤ) - 0).fdiv 1000 : ℤ) : ℚ)).hunger = 45 ∧
    (70 : ℚ) ≠ 45 := by
  have hfd : (100000 : ℤ).fdiv 1000 = 100 := by decide
  refine ⟨?_, ?_, by norm_num⟩ <;>
    norm_num [loadGame, applyDecay, clamp, RawPet.toPetState,
              effectiveLastUpdated, hfd]

/-- C1 amended: for a version-2 `alive` snapshot with saved age `a` and a
non-zero saved `lastUpdated = T0`, loading at `T1` restores the attributes
by a single lump decay of `floor((T1 − T0)/1000)` seconds, stamps
`lastUpdated = T1`, and leaves the age at the saved value (no retroactive
age increment). A saved `lastUpdated` of exactly `0` is falsy and is
instead treated as "just now", yielding zero elapsed decay. -/
theorem catchup_decay_on_resume (g : RawGame) (rp : RawPet)
    (a T0 T1 : ℤ) (hv : g.version = some 2) (hst : g.stage = some .alive)
    (hage : g.age = some a) (hp : g.pet = some rp)
    (hlu : rp.lastUpdated = some T0) (hT0 : T0 ≠ 0) :
    loadGame (.parsed g) T1 =
      { stage := .alive, age := a,
        pet := { applyDecay { hunger := rp.hunger, happiness := rp.happiness,
                              energy := rp.energy,
                              cleanliness := rp.cleanliness,
                              lastUpdated := T0 }
                   (((T1 - T0).fdiv 1000 : ℤ) : ℚ) with
                 lastUpdated := T1 } } := by
  have heff : effectiveLastUpdated rp T1 = T0 := by
    simp [effectiveLastUpdated, hlu, hT0]
  simp [loadGame, hv, hst, hage, hp, RawPet.toPetState, heff, applyDecay]

theorem catchup_decay_on_resume_witness :
    c1Saved.version = some 2 ∧ c1Saved.pet = some c1SavedPet ∧
    c1SavedPet.lastUpdated = some 50000 ∧ (50000 : ℤ) ≠ 0 ∧
    loadGame (.parsed c1Saved) 100000 =
      { stage := .alive, age := 7,
        pet := { applyDecay { hunger := c1SavedPet.hunger,
                              happiness := c1SavedPet.happiness,
                              energy := c1SavedPet.energy,
                              cleanliness := c1SavedPet.cleanliness,
                              lastUpdated := 50000 }
                   ((((100000 : ℤ) - 50000).fdiv 1000 : ℤ) : ℚ) with
                 lastUpdated := 100000 } } :=
  ⟨rfl, rfl, rfl, by decide,
   catchup_decay_on_resume c1Saved c1SavedPet 7 50000 100000
     rfl rfl rfl rfl rfl (by decide)⟩

/-- C4 counterexample: `restart()` is not stage-gated, so from `hatching`
(and likewise from `alive`) it changes the stage to `egg`, although the
claim allows only the hatch-timer elapse to change stage from `hatching`. -/
theorem restart_changes_stage_cex :
    ({ stage := .hatching, age := 0, pet := freshPet 0 } : GameState).stage
      = .hatching ∧
    (step 5 .restart { stage := .hatching, age := 0, pet := freshPet 0 }).stage
      = .egg ∧
    (step 5 .restart { stage := .alive, age := 3, pet := freshPet 0 }).stage
      = .egg := by
  refine ⟨rfl, rfl, rfl⟩

/-- C4 amended: the only stage changes are: from `egg`, `hatch()` (to
`hatching`); from `hatching`, the hatch-timer elapse (to `alive`) or
`restart()` (to `egg`); from `alive`, the death check once
`age ≥ MAX_AGE` (to `dead`) or `restart()` (to `egg`); from `dead`,
`restart()` (to `egg`). -/
theorem stage_change_classification (now : ℤ) (e : Event) (s : GameState)
    (h : (step now e s).stage ≠ s.stage) :
    (s.stage = .egg ∧ e = .hatch ∧ (step now e s).stage = .hatching) ∨
    (s.stage = .hatching ∧
      ((e = .hatchTimer ∧ (step now e s).stage = .alive) ∨
       (e = .restart ∧ (step now e s).stage = .egg))) ∨
    (s.stage = .alive ∧
      ((e = .deathCheck ∧ MAX_AGE ≤ s.age ∧ (step now e s).stage = .dead) ∨
       (e = .restart ∧ (step now e s).stage = .egg))) ∨
    (s.stage = .dead ∧ e = .restart ∧ (step now e s).stage = .egg) := by
  cases e <;> cases hs : s.stage <;>
    simp_all [step, hatch, restart, feed, play, nap, clean,
              hatchTimerEffect, tickEffect, deathCheckEffect]
  rcases le_or_lt MAX_AGE s.age with hage | hage
  · exact ⟨hage, by simp [hage]⟩
  · rw [if_neg (not_le.mpr hage)] at h
    exact absurd hs h

theorem stage_change_classification_witness :
    (step 0 .hatch { stage := .egg, age := 0, pet := freshPet 0 }).stage
      ≠ ({ stage := .egg, age := 0, pet := freshPet 0 } : GameState).stage ∧
    ((({ stage := .egg, age := 0, pet := freshPet 0 } : GameState).stage = .egg ∧
       Event.hatch = .hatch ∧
       (step 0 .hatch { stage := .egg, age := 0, pet := freshPet 0 }).stage
         = .hatching) ∨
     (({ stage := .egg, age := 0, pet := freshPet 0 } : GameState).stage = .hatching ∧
       ((Event.hatch = .hatchTimer ∧
         (step 0 .hatch { stage := .egg, age := 0, pet := freshPet 0 }).stage = .alive) ∨
        (Event.hatch = .restart ∧
         (step 0 .hatch { stage := .egg, age := 0, pet := freshPet 0 }).stage = .egg))) ∨
     (({ stage := .egg, age := 0, pet := freshPet 0 } : GameState).stage = .alive ∧
       ((Event.hatch = .deathCheck ∧
         MAX_AGE ≤ ({ stage := .egg, age := 0, pet := freshPet 0 } : GameState).age ∧
         (step 0 .hatch { stage := .egg, age := 0, pet := freshPet 0 }).stage = .dead) ∨
        (Event.hatch = .restart ∧
         (step 0 .hatch { stage := .egg, age := 0, pet := freshPet 0 }).stage = .egg))) ∨
     (({ stage := .egg, age := 0, pet := freshPet 0 } : GameState).stage = .dead ∧
       Event.hatch = .restart ∧
       (step 0 .hatch { stage := .egg, age := 0, pet := freshPet 0 }).stage = .egg)) :=
  ⟨by decide,
   stage_change_classification 0 .hatch
     { stage := .egg, age := 0, pet := freshPet 0 } (by decide)⟩

end Tamagotchi
